import Mathlib

/-!
Shallow embedding of the photo_watermark2 application (src/main.py).

Conventions used throughout:
- Python integers are modelled as Lean Int (they are unbounded in Python).
- Python floor division (the // operator) is Int.fdiv. The int(...) casts of
  float expressions on the resize paths follow an explicit IEEE binary64
  model (pyscale, pyintdiv, pymulratio below), since double rounding there
  can differ from the exact floor. The text-alpha cast int(255 * opacity /
  100) is modelled as an exact truncated quotient, which is provably equal to
  the float computation because the fractional parts involved are multiples
  of 1 / 20, far beyond double rounding error.
- PIL image sizes are Nat; pixel coordinates are Int so that negative paste
  offsets can be expressed.
- Filesystem, font rasterization, LANCZOS and BICUBIC resampling and image
  decoding are external to the program; they are supplied by a PILEnv record
  of functions and quantified over in the theorems.
-/

/-- Python sequence of two ints that is either a tuple or a list. Python
equality distinguishes the two: a tuple never equals a list, which matters
for the JSON round-trip claims, since json.load always produces lists. -/
inductive PySeq2 where
  | tup (a b : Int)
  | lst (a b : Int)
deriving DecidableEq

/-- Python sequence of three ints that is either a tuple or a list. -/
inductive PySeq3 where
  | tup (a b c : Int)
  | lst (a b c : Int)
deriving DecidableEq

/-- First element, as Python indexing s[0] which works on tuples and lists. -/
def seq2_x : PySeq2 → Int
  | .tup a _ => a
  | .lst a _ => a

/-- Second element of a two-element Python sequence. -/
def seq2_y : PySeq2 → Int
  | .tup _ b => b
  | .lst _ b => b

/-- First element of a three-element Python sequence. -/
def seq3_r : PySeq3 → Int
  | .tup a _ _ => a
  | .lst a _ _ => a

/-- Second element of a three-element Python sequence. -/
def seq3_g : PySeq3 → Int
  | .tup _ b _ => b
  | .lst _ b _ => b

/-- Third element of a three-element Python sequence. -/
def seq3_b : PySeq3 → Int
  | .tup _ _ c => c
  | .lst _ _ c => c

/-- Forget whether a PySeq2 is a tuple or a list (used by json serialization,
which writes both as a JSON array). -/
def seq2_pair (s : PySeq2) : Int × Int := (seq2_x s, seq2_y s)

/-- Forget whether a PySeq3 is a tuple or a list. -/
def seq3_triple (s : PySeq3) : Int × Int × Int := (seq3_r s, seq3_g s, seq3_b s)

/-- Rebuild a PySeq2 in list form, as json.load does for any JSON array. -/
def seq2_as_list (s : PySeq2) : PySeq2 := .lst (seq2_x s) (seq2_y s)

/-- Rebuild a PySeq3 in list form. -/
def seq3_as_list (s : PySeq3) : PySeq3 := .lst (seq3_r s) (seq3_g s) (seq3_b s)

/-- dataclass ExportRule of src/main.py. Field names follow the source. -/
structure ExportRule where
  mode : String := "keep"
  text : String := ""
  out_format : String := "PNG"
  jpeg_quality : Int := 90
  resize_mode : String := "none"
  resize_value : Int := 100
deriving DecidableEq

/-- dataclass TextStyle of src/main.py. -/
structure TextStyle where
  text : String := "Sample Watermark"
  opacity : Int := 40
  font_path : Option String := none
  font_size : Int := 36
  stroke : Bool := true
  stroke_width : Int := 2
  stroke_color : PySeq3 := .tup 0 0 0
  fill_color : PySeq3 := .tup 255 255 255
  shadow : Bool := true
  shadow_offset : PySeq2 := .tup 2 2
deriving DecidableEq

/-- dataclass ImageMark of src/main.py. -/
structure ImageMark where
  path : Option String := none
  opacity : Int := 40
  scale_percent : Int := 30
deriving DecidableEq

/-- dataclass Layout of src/main.py. rotation_deg is a Python float set only
from an integer spin box (float(self.spn_rotate.value())); it is modelled as
an Int, and the rotation guard abs(rotation_deg) > 1e-3 becomes rotation_deg
different from 0, which agrees on all integer values. -/
structure Layout where
  anchor : String := "center"
  offset_x : Int := 0
  offset_y : Int := 0
  rotation_deg : Int := 0
  allow_drag : Bool := true
deriving DecidableEq

/-- dataclass WatermarkConfig of src/main.py. The Python field named export is
called export_rule here because export is a Lean keyword. -/
structure WatermarkConfig where
  use_text : Bool := true
  text : TextStyle := {}
  use_image : Bool := false
  image : ImageMark := {}
  layout : Layout := {}
  export_rule : ExportRule := {}
deriving DecidableEq

/-- The default-constructed WatermarkConfig(). -/
def default_config : WatermarkConfig := {}

/-- calc_anchor_pos of src/main.py: the nine-zone geometry resolver. The
Python dict lookup mapping.get(anchor, (0, 0)) is written as an if chain over
the nine keys; Python // is floor division, Int.fdiv. -/
def calc_anchor_pos (base_w base_h mark_w mark_h : Int) (anchor : String)
    (offx offy : Int) : Int × Int :=
  let p : Int × Int :=
    if anchor = "tl" then (0, 0)
    else if anchor = "tm" then (Int.fdiv base_w 2 - Int.fdiv mark_w 2, 0)
    else if anchor = "tr" then (base_w - mark_w, 0)
    else if anchor = "ml" then (0, Int.fdiv base_h 2 - Int.fdiv mark_h 2)
    else if anchor = "center" then
      (Int.fdiv base_w 2 - Int.fdiv mark_w 2, Int.fdiv base_h 2 - Int.fdiv mark_h 2)
    else if anchor = "mr" then (base_w - mark_w, Int.fdiv base_h 2 - Int.fdiv mark_h 2)
    else if anchor = "bl" then (0, base_h - mark_h)
    else if anchor = "bm" then (Int.fdiv base_w 2 - Int.fdiv mark_w 2, base_h - mark_h)
    else if anchor = "br" then (base_w - mark_w, base_h - mark_h)
    else (0, 0)
  (p.1 + offx, p.2 + offy)

/-- Modelled from the claim wording of C1, for comparison with the source:
the row picks a y base of 0, (canvasH - overlayH) // 2, or canvasH - overlayH,
the column symmetrically, and an unrecognized anchor yields base (0, 0); the
raw offsets are then added. This is the claimed behavior, not the code. -/
def claim_anchor_pos (base_w base_h mark_w mark_h : Int) (anchor : String)
    (offx offy : Int) : Int × Int :=
  let col : Nat :=
    if anchor = "tl" ∨ anchor = "ml" ∨ anchor = "bl" then 0
    else if anchor = "tm" ∨ anchor = "center" ∨ anchor = "bm" then 1
    else if anchor = "tr" ∨ anchor = "mr" ∨ anchor = "br" then 2
    else 3
  let row : Nat :=
    if anchor = "tl" ∨ anchor = "tm" ∨ anchor = "tr" then 0
    else if anchor = "ml" ∨ anchor = "center" ∨ anchor = "mr" then 1
    else if anchor = "bl" ∨ anchor = "bm" ∨ anchor = "br" then 2
    else 3
  let x : Int :=
    if col = 0 then 0
    else if col = 1 then Int.fdiv (base_w - mark_w) 2
    else if col = 2 then base_w - mark_w
    else 0
  let y : Int :=
    if row = 0 then 0
    else if row = 1 then Int.fdiv (base_h - mark_h) 2
    else if row = 2 then base_h - mark_h
    else 0
  (x + offx, y + offy)

/-- The nine anchor tags offered by the UI combo box. -/
def anchor_tags : List String :=
  ["tl", "tm", "tr", "ml", "center", "mr", "bl", "bm", "br"]

/-!
JSON persistence (MainWindow.save_last_state / load_last_state, and the
identical template save / load code paths).

asdict followed by json.dump writes a flat object mirroring the dataclasses;
every field is present in the written document. json.load turns every JSON
array into a Python list, never a tuple. A JSON-side record therefore has an
Option per key (absent keys are possible when reading a hand-edited or older
document) and stores sequences as bare pairs / triples of numbers.
-/

/-- JSON object holding a serialized TextStyle; none means the key is absent.
font_path distinguishes an absent key from a key holding JSON null. -/
structure JTextStyle where
  text : Option String := none
  opacity : Option Int := none
  font_path : Option (Option String) := none
  font_size : Option Int := none
  stroke : Option Bool := none
  stroke_width : Option Int := none
  stroke_color : Option (Int × Int × Int) := none
  fill_color : Option (Int × Int × Int) := none
  shadow : Option Bool := none
  shadow_offset : Option (Int × Int) := none
deriving DecidableEq

/-- JSON object holding a serialized ImageMark. -/
structure JImageMark where
  path : Option (Option String) := none
  opacity : Option Int := none
  scale_percent : Option Int := none
deriving DecidableEq

/-- JSON object holding a serialized Layout. -/
structure JLayout where
  anchor : Option String := none
  offset_x : Option Int := none
  offset_y : Option Int := none
  rotation_deg : Option Int := none
  allow_drag : Option Bool := none
deriving DecidableEq

/-- JSON object holding a serialized ExportRule. -/
structure JExportRule where
  mode : Option String := none
  text : Option String := none
  out_format : Option String := none
  jpeg_quality : Option Int := none
  resize_mode : Option String := none
  resize_value : Option Int := none
deriving DecidableEq

/-- The flat JSON document written for templates and session state. The key
named export in the file is export_rule here (Lean keyword). -/
structure JConfig where
  use_text : Option Bool := none
  text : Option JTextStyle := none
  use_image : Option Bool := none
  image : Option JImageMark := none
  layout : Option JLayout := none
  export_rule : Option JExportRule := none
deriving DecidableEq

/-- Serialization of a TextStyle by asdict + json.dump: every key present,
tuples and lists both becoming JSON arrays. -/
def asdict_text (t : TextStyle) : JTextStyle :=
  { text := some t.text
    opacity := some t.opacity
    font_path := some t.font_path
    font_size := some t.font_size
    stroke := some t.stroke
    stroke_width := some t.stroke_width
    stroke_color := some (seq3_triple t.stroke_color)
    fill_color := some (seq3_triple t.fill_color)
    shadow := some t.shadow
    shadow_offset := some (seq2_pair t.shadow_offset) }

/-- Serialization of an ImageMark. -/
def asdict_image (m : ImageMark) : JImageMark :=
  { path := some m.path
    opacity := some m.opacity
    scale_percent := some m.scale_percent }

/-- Serialization of a Layout. -/
def asdict_layout (l : Layout) : JLayout :=
  { anchor := some l.anchor
    offset_x := some l.offset_x
    offset_y := some l.offset_y
    rotation_deg := some l.rotation_deg
    allow_drag := some l.allow_drag }

/-- Serialization of an ExportRule. -/
def asdict_export_rule (r : ExportRule) : JExportRule :=
  { mode := some r.mode
    text := some r.text
    out_format := some r.out_format
    jpeg_quality := some r.jpeg_quality
    resize_mode := some r.resize_mode
    resize_value := some r.resize_value }

/-- MainWindow.save_last_state (and on_save_template): json.dump(asdict(cfg)).
The document it writes has every key present. -/
def save_last_state (c : WatermarkConfig) : JConfig :=
  { use_text := some c.use_text
    text := some (asdict_text c.text)
    use_image := some c.use_image
    image := some (asdict_image c.image)
    layout := some (asdict_layout c.layout)
    export_rule := some (asdict_export_rule c.export_rule) }

/-- TextStyle(**d.get('text', {})): each missing key takes the dataclass
default; a present color or offset key holds a Python list (json.load). -/
def load_text (j : JTextStyle) : TextStyle :=
  { text := j.text.getD "Sample Watermark"
    opacity := j.opacity.getD 40
    font_path := j.font_path.getD none
    font_size := j.font_size.getD 36
    stroke := j.stroke.getD true
    stroke_width := j.stroke_width.getD 2
    stroke_color :=
      match j.stroke_color with
      | some t => PySeq3.lst t.1 t.2.1 t.2.2
      | none => PySeq3.tup 0 0 0
    fill_color :=
      match j.fill_color with
      | some t => PySeq3.lst t.1 t.2.1 t.2.2
      | none => PySeq3.tup 255 255 255
    shadow := j.shadow.getD true
    shadow_offset :=
      match j.shadow_offset with
      | some t => PySeq2.lst t.1 t.2
      | none => PySeq2.tup 2 2 }

/-- ImageMark(**d.get('image', {})). -/
def load_image_mark (j : JImageMark) : ImageMark :=
  { path := j.path.getD none
    opacity := j.opacity.getD 40
    scale_percent := j.scale_percent.getD 30 }

/-- Layout(**d.get('layout', {})). -/
def load_layout (j : JLayout) : Layout :=
  { anchor := j.anchor.getD "center"
    offset_x := j.offset_x.getD 0
    offset_y := j.offset_y.getD 0
    rotation_deg := j.rotation_deg.getD 0
    allow_drag := j.allow_drag.getD true }

/-- ExportRule(**d.get('export', {})). -/
def load_export_rule (j : JExportRule) : ExportRule :=
  { mode := j.mode.getD "keep"
    text := j.text.getD ""
    out_format := j.out_format.getD "PNG"
    jpeg_quality := j.jpeg_quality.getD 90
    resize_mode := j.resize_mode.getD "none"
    resize_value := j.resize_value.getD 100 }

/-- MainWindow.load_last_state (and on_load_template) applied to a parsed
JSON document: WatermarkConfig built with per-field defaulting. -/
def load_last_state (j : JConfig) : WatermarkConfig :=
  { use_text := j.use_text.getD true
    text := load_text (j.text.getD {})
    use_image := j.use_image.getD false
    image := load_image_mark (j.image.getD {})
    layout := load_layout (j.layout.getD {})
    export_rule := load_export_rule (j.export_rule.getD {}) }

/-- A TextStyle with its color and offset sequences coerced to list form;
this is what a round trip through JSON actually returns. -/
def normalize_text (t : TextStyle) : TextStyle :=
  { t with
    stroke_color := seq3_as_list t.stroke_color
    fill_color := seq3_as_list t.fill_color
    shadow_offset := seq2_as_list t.shadow_offset }

/-- A WatermarkConfig with every nested sequence coerced to list form. Only
TextStyle holds sequence-valued fields. -/
def normalize_config (c : WatermarkConfig) : WatermarkConfig :=
  { c with text := normalize_text c.text }

/-!
Imaging model. A PIL image is a mode, a size, and a total pixel function
giving the RGBA reading of each coordinate (for modes without alpha the
stored alpha is conventionally 255; for gray modes the gray value is read
through the three color channels, matching how PIL converts them).
-/

/-- One pixel, in RGBA reading; channel values are Python ints. -/
structure RGBAc where
  r : Int
  g : Int
  b : Int
  a : Int
deriving DecidableEq

/-- PIL image modes reachable in this program. -/
inductive PilMode where
  | RGB
  | RGBA
  | L
  | LA
deriving DecidableEq

/-- True for the modes that carry an alpha channel. -/
def modeHasAlpha : PilMode → Bool
  | .RGBA => true
  | .LA => true
  | _ => false

/-- A PIL image: mode, size, and pixel content. -/
structure Img where
  mode : PilMode
  width : Nat
  height : Nat
  px : Int → Int → RGBAc

/-- img.convert(RGBA as a target): identity when already RGBA, otherwise the
same pixels with alpha forced to 255 for modes that had no alpha channel. -/
def convertRGBA (img : Img) : Img :=
  if img.mode = PilMode.RGBA then img
  else
    { mode := PilMode.RGBA
      width := img.width
      height := img.height
      px := fun x y =>
        let p := img.px x y
        if modeHasAlpha img.mode then p else { p with a := 255 } }

/-- img.convert(RGB as a target) from a mode with alpha: PIL simply drops the
alpha band and keeps the stored color channels; nothing is composited against
a background. -/
def convertRGB (img : Img) : Img :=
  { mode := PilMode.RGB
    width := img.width
    height := img.height
    px := fun x y =>
      let p := img.px x y
      { p with a := 255 } }

/-- Image.new(RGBA, size, (0,0,0,0)): a fully transparent layer. -/
def newRGBA (w h : Nat) : Img :=
  { mode := PilMode.RGBA
    width := w
    height := h
    px := fun _ _ => { r := 0, g := 0, b := 0, a := 0 } }

/-- Per-pixel source-over blending as implemented by PIL alpha_composite: a
fully transparent source pixel leaves the destination pixel untouched
(including its color channels); otherwise premultiplied blending. The library
uses 7-bit fixed-point rounding in the general branch; that branch is
modelled with exact floor arithmetic, which coincides with the library on the
extreme alpha values 0 and 255 that the theorems rely on. -/
def blendOver (bg fg : RGBAc) : RGBAc :=
  if fg.a = 0 then bg
  else
    let blend := bg.a * (255 - fg.a)
    let outa255 := fg.a * 255 + blend
    { r := Int.fdiv (fg.r * fg.a * 255 + bg.r * blend) outa255
      g := Int.fdiv (fg.g * fg.a * 255 + bg.g * blend) outa255
      b := Int.fdiv (fg.b * fg.a * 255 + bg.b * blend) outa255
      a := Int.fdiv (outa255 + 127) 255 }

/-- Image.alpha_composite(img, overlay): whole-image source-over blend; the
result is a new RGBA image of the base size. -/
def alpha_composite (img overlay : Img) : Img :=
  { mode := PilMode.RGBA
    width := img.width
    height := img.height
    px := fun x y => blendOver (img.px x y) (overlay.px x y) }

/-- dst.alpha_composite(layer, (bx, by)): in-place source-over blend of a
layer pasted with its top-left corner at (bx, by); pixels outside the pasted
rectangle are unchanged. -/
def paste_composite (dst layer : Img) (bx byy : Int) : Img :=
  { mode := dst.mode
    width := dst.width
    height := dst.height
    px := fun x y =>
      if bx ≤ x ∧ x < bx + (layer.width : Int) ∧ byy ≤ y ∧ y < byy + (layer.height : Int) then
        blendOver (dst.px x y) (layer.px (x - bx) (y - byy))
      else dst.px x y }

/-!
Text overlay renderer. The colors handed to the PIL text-drawing calls are
fully determined by the TextStyle; the rasterization itself (font metrics,
glyph shapes, Gaussian blur) is external and supplied by the environment.
-/

/-- int(255 * cfg.opacity / 100) of src/main.py: true division followed by
the int(...) cast, which truncates toward zero; for the 0..100 opacity range
this is the floor of 255 * opacity / 100. The float quotient is never within
rounding error of an integer it does not equal (its fractional part is a
multiple of 1/20), so exact integer division is faithful. -/
def text_alpha (opacity : Int) : Int := Int.tdiv (255 * opacity) 100

/-- One drawing instruction issued while building the transient text layer. -/
inductive DrawOp where
  | text (posx posy : Int) (fill : RGBAc) (strokeWidth : Int) (strokeFill : Option RGBAc)
  | gaussianBlur (radius : Int)
deriving DecidableEq

/-- The sequence of drawing instructions draw_text_watermark issues on the
transient text layer: optional shadow text (black, then a radius-1 blur of
the whole layer), then the main text with or without stroke. All fills use
the same computed alpha. -/
def text_layer_ops (cfg : TextStyle) : List DrawOp :=
  let a := text_alpha cfg.opacity
  let shadow_ops : List DrawOp :=
    if cfg.shadow then
      [DrawOp.text (10 + seq2_x cfg.shadow_offset) (10 + seq2_y cfg.shadow_offset)
        { r := 0, g := 0, b := 0, a := a } 0 none,
       DrawOp.gaussianBlur 1]
    else []
  let main_op : DrawOp :=
    if cfg.stroke then
      DrawOp.text 10 10
        { r := seq3_r cfg.fill_color, g := seq3_g cfg.fill_color,
          b := seq3_b cfg.fill_color, a := a }
        cfg.stroke_width
        (some { r := seq3_r cfg.stroke_color, g := seq3_g cfg.stroke_color,
                b := seq3_b cfg.stroke_color, a := a })
    else
      DrawOp.text 10 10
        { r := seq3_r cfg.fill_color, g := seq3_g cfg.fill_color,
          b := seq3_b cfg.fill_color, a := a }
        0 none
  shadow_ops ++ [main_op]

/-- The alpha values carried by one drawing instruction (fill first, then the
stroke fill when present). -/
def op_alphas : DrawOp → List Int
  | .text _ _ fill _ none => [fill.a]
  | .text _ _ fill _ (some s) => [fill.a, s.a]
  | .gaussianBlur _ => []

/-- External collaborators of the pipeline: image decoding from disk, font
rasterization of the transient text layer, rotation with canvas expansion,
and the pixel content produced by LANCZOS resampling. They are quantified
over in every theorem. -/
structure PILEnv where
  openImage : String → Img
  renderTextLayer : TextStyle → List DrawOp → Img
  rotateExpand : Img → Int → Img
  loadMark : Option String → Option Img
  resample : Img → Nat → Nat → Int → Int → RGBAc

/-- img.resize((w, h), Image.LANCZOS): the result has exactly the requested
size and the mode of the source; the resampled content is external. -/
def resizeLanczos (env : PILEnv) (img : Img) (w h : Nat) : Img :=
  { mode := img.mode
    width := w
    height := h
    px := fun x y => env.resample img w h x y }

/-- draw_text_watermark of src/main.py. The base is converted to RGBA, the
transient text layer is rasterized from the drawing instructions, rotated
when the rotation is nonzero, placed through calc_anchor_pos, pasted onto a
transparent overlay of the base size, and the overlay is alpha-composited
onto the base. -/
def draw_text_watermark (env : PILEnv) (base : Img) (cfg : TextStyle)
    (layout : Layout) : Img :=
  let img := convertRGBA base
  let overlay := newRGBA img.width img.height
  let tl0 := env.renderTextLayer cfg (text_layer_ops cfg)
  let tl := if layout.rotation_deg ≠ 0 then env.rotateExpand tl0 layout.rotation_deg else tl0
  let pos := calc_anchor_pos (img.width : Int) (img.height : Int)
    (tl.width : Int) (tl.height : Int) layout.anchor layout.offset_x layout.offset_y
  let overlay2 := paste_composite overlay tl pos.1 pos.2
  alpha_composite img overlay2

/-!
IEEE binary64 model. The resize paths of the program compute sizes through
Python float arithmetic, whose truncation can differ from the exact rational
floor (for example int(100 * (29 / 100.0)) is 28, not 29). Doubles are
modelled as mantissa-exponent pairs (m, e) of value m * 2 ^ e, with correct
rounding to 53 significant bits and ties to even; exponents are unbounded
(no overflow or subnormal handling, the program's values stay far inside the
normal range) and only nonnegative values are needed. Everything is integer
arithmetic, so it evaluates by kernel reduction.
-/

/-- Number of binary digits of n (0 for 0). The structural fuel makes it
reduce in the kernel; fuel n suffices because a positive n has at most n
digits. -/
def natBitsAux : Nat → Nat → Nat
  | 0, _ => 0
  | f + 1, n => if n = 0 then 0 else natBitsAux f (n / 2) + 1

/-- Number of binary digits of a natural number. -/
def natBits (n : Nat) : Nat := natBitsAux n n

/-- Round a / b (for b > 0) to the nearest integer with ties to even, the
rounding IEEE 754 applies to the scaled mantissa. -/
def rnte (a b : Nat) : Nat :=
  let n0 := a / b
  let r := a % b
  if 2 * r < b then n0
  else if b < 2 * r then n0 + 1
  else if n0 % 2 = 0 then n0 else n0 + 1

/-- The binary64 value nearest to a / b for nonnegative a and positive b, as
a mantissa-exponent pair. The binade exponent k with 2 ^ k less-or-equal a/b
less 2 ^ (k+1) is found from the digit counts of a and b (correcting the
off-by-one case by one comparison), the mantissa is a / b scaled into
[2 ^ 52, 2 ^ 53] and rounded to nearest, ties to even. A zero denominator,
which raises ZeroDivisionError in Python and cannot arise from PIL images
(their dimensions are positive), returns 0. -/
def f64ofRatPos (a b : Nat) : Nat × Int :=
  if b = 0 then (0, 0)
  else
    let k0 : Int := (natBits a : Int) - (natBits b : Int)
    let ok : Bool :=
      if 0 ≤ k0 then decide (2 ^ k0.toNat * b ≤ a) else decide (b ≤ 2 ^ (-k0).toNat * a)
    let k : Int := if ok then k0 else k0 - 1
    let s : Int := 52 - k
    let m : Nat := if 0 ≤ s then rnte (a * 2 ^ s.toNat) b else rnte a (b * 2 ^ (-s).toNat)
    (m, k - 52)

/-- IEEE binary64 product of two nonnegative doubles: the exact product,
correctly rounded. -/
def f64mulPos (x y : Nat × Int) : Nat × Int :=
  let m := x.1 * y.1
  let e := x.2 + y.2
  if 0 ≤ e then f64ofRatPos (m * 2 ^ e.toNat) 1 else f64ofRatPos m (2 ^ (-e).toNat)

/-- IEEE binary64 quotient of two nonnegative doubles: the exact quotient,
correctly rounded. -/
def f64divPos (x y : Nat × Int) : Nat × Int :=
  let e := x.2 - y.2
  if 0 ≤ e then f64ofRatPos (x.1 * 2 ^ e.toNat) y.1 else f64ofRatPos x.1 (y.1 * 2 ^ (-e).toNat)

/-- Python int() of a nonnegative double: truncation, here the floor. -/
def f64floorPos (x : Nat × Int) : Nat :=
  if 0 ≤ x.2 then x.1 * 2 ^ x.2.toNat else x.1 / 2 ^ (-x.2).toNat

/-- Python int(w * (v / 100.0)) for nonnegative ints w and v: v is converted
to a double and divided by the double 100.0, w is converted to a double, the
product is rounded, and int() truncates. -/
def pyscale (w v : Nat) : Nat :=
  f64floorPos (f64mulPos (f64ofRatPos w 1) (f64divPos (f64ofRatPos v 1) (f64ofRatPos 100 1)))

/-- Python int(a / b) for nonnegative ints: the true int-by-int division is
the correctly rounded double of the exact quotient, then int() truncates. -/
def pyintdiv (a b : Nat) : Nat := f64floorPos (f64ofRatPos a b)

/-- Python int(h * (tw / ww)) for nonnegative ints: the quotient tw / ww is
rounded to a double first, then multiplied by the double of h, rounded, and
truncated, as in the image-overlay height computation. -/
def pymulratio (h tw ww : Nat) : Nat :=
  f64floorPos (f64mulPos (f64ofRatPos h 1) (f64ofRatPos tw ww))

/-- The overlay layer draw_image_watermark builds when the mark file is
present: mark loaded and converted to RGBA, scaled so its width is
max(1, int(base width times scale percent / 100)) with proportional height,
its alpha multiplied by opacity / 100 (int cast truncating), and pasted at
the resolved anchor position onto a transparent base-sized layer. The two
size casts follow the binary64 model; the alpha cast is modelled as an exact
quotient (the double computation can differ by one for some alpha-opacity
pairs, none of which any claim depends on). -/
def image_overlay (env : PILEnv) (img : Img) (mark : ImageMark)
    (layout : Layout) : Option Img :=
  match env.loadMark mark.path with
  | none => none
  | some wm0 =>
    let wm1 := convertRGBA wm0
    let scaleN : Nat := (max 1 mark.scale_percent).toNat
    let target_w : Nat := max 1 (pyscale img.width scaleN)
    let target_h : Nat := max 1 (pymulratio wm1.height target_w wm1.width)
    let wm2 := resizeLanczos env wm1 target_w target_h
    let wm3 : Img :=
      { mode := wm2.mode
        width := wm2.width
        height := wm2.height
        px := fun x y =>
          let p := wm2.px x y
          { p with a := Int.tdiv (p.a * mark.opacity) 100 } }
    let pos := calc_anchor_pos (img.width : Int) (img.height : Int)
      (wm3.width : Int) (wm3.height : Int) layout.anchor layout.offset_x layout.offset_y
    some (paste_composite (newRGBA img.width img.height) wm3 pos.1 pos.2)

/-- draw_image_watermark of src/main.py: when the mark path is unset or the
file is missing the RGBA-converted base is returned unchanged; otherwise the
built overlay is alpha-composited onto it. -/
def draw_image_watermark (env : PILEnv) (base : Img) (mark : ImageMark)
    (layout : Layout) : Img :=
  let img := convertRGBA base
  match image_overlay env img mark layout with
  | none => img
  | some ov => alpha_composite img ov

/-- apply_watermark_once of src/main.py: open the base image, apply the text
pass when use_text, then the image pass when use_image, and return the
result. No resizing happens here. -/
def apply_watermark_once (env : PILEnv) (img_path : String)
    (cfg : WatermarkConfig) : Img :=
  let base := env.openImage img_path
  let out := base
  let out := if cfg.use_text then draw_text_watermark env out cfg.text cfg.layout else out
  let out := if cfg.use_image then draw_image_watermark env out cfg.image cfg.layout else out
  out

/-- apply_resize of src/main.py. The identity branches return the very same
image object. The by_width and by_height branches divide exact Python ints,
a single correctly rounded double then truncated (pyintdiv); the by_percent
branch first rounds max(1, value) / 100.0 to a double and then multiplies,
so its truncation can fall below the exact floor (pyscale); PIL image
dimensions are positive, so the divisions are by nonzero numbers in every
real run. -/
def apply_resize (env : PILEnv) (img : Img) (rule : ExportRule) : Img :=
  if rule.resize_mode = "none" then img
  else
    let w := img.width
    let h := img.height
    if rule.resize_mode = "by_width" then
      let new_w : Nat := (max 1 rule.resize_value).toNat
      let new_h : Nat := max 1 (pyintdiv (h * new_w) w)
      resizeLanczos env img new_w new_h
    else if rule.resize_mode = "by_height" then
      let new_h : Nat := (max 1 rule.resize_value).toNat
      let new_w : Nat := max 1 (pyintdiv (w * new_h) h)
      resizeLanczos env img new_w new_h
    else if rule.resize_mode = "by_percent" then
      let v : Nat := (max 1 rule.resize_value).toNat
      let new_w : Nat := max 1 (pyscale w v)
      let new_h : Nat := max 1 (pyscale h v)
      resizeLanczos env img new_w new_h
    else img

/-!
Exporter. Path handling follows posixpath: basename, splitext, join.
-/

/-- os.path.basename: the part after the last slash (empty for a path ending
in a slash). Implemented by a left fold over the characters so that it
evaluates by kernel reduction. -/
def basename (p : String) : String :=
  String.mk (p.data.foldl (fun acc c => if c = '/' then [] else acc ++ [c]) [])

/-- Index of the last slash in a character list, if any. -/
def lastSlashIdx (cs : List Char) : Option Nat :=
  (cs.reverse.findIdx? (fun c => c = '/')).map (fun k => cs.length - 1 - k)

/-- Root part of os.path.splitext applied to a slash-free name: cut at the
last dot provided some character strictly before it is not a dot (so purely
leading dots never start an extension). -/
def stem_chars (cs : List Char) : List Char :=
  match (cs.reverse.findIdx? (fun c => c = '.')).map (fun k => cs.length - 1 - k) with
  | none => cs
  | some extIndex =>
    let before := cs.take extIndex
    if before.any (fun c => c ≠ '.') then before else cs

/-- os.path.splitext(os.path.basename(p))[0]: source file name without its
extension. -/
def file_stem (p : String) : String := String.mk (stem_chars (basename p).data)

/-- posixpath.join of a directory and a relative or absolute entry. -/
def pjoin (a b : String) : String :=
  if b.startsWith "/" then b
  else if a = "" then b
  else if a.endsWith "/" then a ++ b else a ++ "/" ++ b

/-- The extension export_image writes: jpg exactly when the output format is
the string JPEG, png for every other format value. -/
def export_ext (rule : ExportRule) : String :=
  if rule.out_format = "JPEG" then "jpg" else "png"

/-- The output base name export_image builds from the naming mode: keep uses
the stem, the prepend mode puts the rule text before it, the append mode puts
the rule text after it, anything else behaves like keep. -/
def export_name (rule : ExportRule) (base_name : String) : String :=
  if rule.mode = "keep" then base_name
  else if rule.mode = "prefix" then rule.text ++ base_name
  else if rule.mode = "suffix" then base_name ++ rule.text
  else base_name

/-- The full output path export_image computes before saving. -/
def out_path_of (src_path export_dir : String) (rule : ExportRule) : String :=
  pjoin export_dir (export_name rule (file_stem src_path) ++ "." ++ export_ext rule)

/-- A file as written by Image.save: the encoded format, the JPEG options
when applicable, and the encoded image. -/
structure SavedFile where
  format : String
  quality : Option Int
  subsampling : Option Int
  image : Img

/-- Image.save with format JPEG: raises on a mode carrying alpha (PIL cannot
encode alpha into JPEG), otherwise writes an alpha-free file at the given
quality with chroma subsampling disabled by the caller. -/
def saveJPEG (img : Img) (quality : Int) : Except String SavedFile :=
  if modeHasAlpha img.mode then Except.error "cannot write this mode as JPEG"
  else Except.ok { format := "JPEG", quality := some quality, subsampling := some 0, image := img }

/-- Image.save with format PNG: lossless for every mode in the model; the
stored pixels, alpha included, are written as they are. -/
def savePNG (img : Img) : SavedFile :=
  { format := "PNG", quality := none, subsampling := none, image := img }

/-- export_image of src/main.py, minus the os.makedirs call whose possible
OSError belongs to the batch model: compute the output path, resize, then
encode; for JPEG an RGBA or LA image is first converted to RGB (alpha
dropped), for any other format the image is saved as PNG unchanged. -/
def export_image (env : PILEnv) (img : Img) (src_path export_dir : String)
    (rule : ExportRule) : Except String (String × SavedFile) :=
  let out_path := out_path_of src_path export_dir rule
  let final0 := apply_resize env img rule
  if rule.out_format = "JPEG" then
    let final1 :=
      if final0.mode = PilMode.RGBA ∨ final0.mode = PilMode.LA then convertRGB final0
      else final0
    match saveJPEG final1 rule.jpeg_quality with
    | Except.ok f => Except.ok (out_path, f)
    | Except.error e => Except.error e
  else Except.ok (out_path, savePNG final0)

/-- The pixel of the image stored in a successful export result, used to
state concrete facts about written files. -/
def exportedPixel (r : Except String (String × SavedFile)) (x y : Int) : Option RGBAc :=
  match r with
  | Except.ok pf => some (pf.2.image.px x y)
  | Except.error _ => none

/-- The mode of the image stored in a successful export result. -/
def exportedMode (r : Except String (String × SavedFile)) : Option PilMode :=
  match r with
  | Except.ok pf => some (pf.2.image.mode)
  | Except.error _ => none

/-!
Batch export (MainWindow.on_export_all). The loop body either refuses an
image whose own directory equals the export directory (warning dialog, no
processing), or runs the watermark-and-export pipeline under a blanket
try / except that logs any exception and continues. Path normalization
(os.path.abspath, which depends on the process working directory) and the
per-image pipeline outcome are abstracted as function parameters.
-/

/-- Characters dropped from the right by posixpath.dirname. -/
def dropTrailingSlashes (cs : List Char) : List Char :=
  (cs.reverse.dropWhile (fun c => c = '/')).reverse

/-- os.path.dirname: everything before the last slash, with trailing slashes
stripped unless the head is entirely slashes; empty when there is no slash. -/
def dirname (p : String) : String :=
  let cs := p.data
  match lastSlashIdx cs with
  | none => ""
  | some i =>
    let head := cs.take (i + 1)
    if head.all (fun c => c = '/') then String.mk head
    else String.mk (dropTrailingSlashes head)

/-- What happened to one image of the batch. -/
inductive ItemOutcome where
  | skippedGuard (p : String)
  | exportedOk (p written : String)
  | failedLogged (p : String) (err : String)
deriving DecidableEq

/-- One iteration of the on_export_all loop for image p: the source-directory
guard first (warning, continue), then the pipeline under the blanket
try / except. proc abstracts apply_watermark_once followed by export_image,
returning the written path or the raised exception text. -/
def batch_step (absp : String → String) (proc : String → Except String String)
    (export_dir p : String) : ItemOutcome :=
  if absp (dirname p) = absp export_dir then ItemOutcome.skippedGuard p
  else
    match proc p with
    | Except.ok written => ItemOutcome.exportedOk p written
    | Except.error e => ItemOutcome.failedLogged p e

/-- The on_export_all loop, structurally: one outcome per image, in order. -/
def batch_loop (absp : String → String) (proc : String → Except String String)
    (export_dir : String) : List String → List ItemOutcome
  | [] => []
  | p :: rest => batch_step absp proc export_dir p :: batch_loop absp proc export_dir rest

/-- MainWindow.on_export_all: an empty list returns early with an information
dialog (modelled as none); otherwise the loop runs to completion over every
image and the completion dialog is shown (modelled as some outcomes). -/
def on_export_all (absp : String → String) (proc : String → Except String String)
    (paths : List String) (export_dir : String) : Option (List ItemOutcome) :=
  if paths = [] then none
  else some (batch_loop absp proc export_dir paths)

/-- All fill alphas occurring in the drawing instructions of one text layer. -/
def text_layer_alphas (cfg : TextStyle) : List Int :=
  (text_layer_ops cfg).flatMap op_alphas

/-!
Concrete fixtures: sample environments, images and rules used to instantiate
the universally quantified theorems on closed inputs.
-/

/-- An everywhere-opaque black pixel function. -/
def opaqueBlackPx : Int → Int → RGBAc := fun _ _ => { r := 0, g := 0, b := 0, a := 255 }

/-- A 1 by 1 opaque RGB image, as PIL returns for a JPEG source. -/
def rgb1x1 : Img := { mode := PilMode.RGB, width := 1, height := 1, px := opaqueBlackPx }

/-- A concrete environment: every source opens as a 1 by 1 RGB image, text
rasterizes to a 1 by 1 transparent layer, no mark file is present. -/
def trivialEnv : PILEnv :=
  { openImage := fun _ => rgb1x1
    renderTextLayer := fun _ _ => newRGBA 1 1
    rotateExpand := fun img _ => img
    loadMark := fun _ => none
    resample := fun _ _ _ _ _ => { r := 0, g := 0, b := 0, a := 255 } }

/-- A concrete environment whose mark file is a 1 by 1 fully opaque RGBA
image. -/
def markEnv : PILEnv :=
  { openImage := fun _ => rgb1x1
    renderTextLayer := fun _ _ => newRGBA 1 1
    rotateExpand := fun img _ => img
    loadMark := fun _ =>
      some { mode := PilMode.RGBA, width := 1, height := 1,
             px := fun _ _ => { r := 10, g := 20, b := 30, a := 255 } }
    resample := fun _ _ _ _ _ => { r := 10, g := 20, b := 30, a := 255 } }

/-- A config with both watermark passes enabled and a fully opaque mark. -/
def cfgBoth : WatermarkConfig :=
  { use_text := true, use_image := true
    image := { path := some "mark.png", opacity := 100 } }

/-- A 200 by 100 RGB image. -/
def img200x100 : Img :=
  { mode := PilMode.RGB, width := 200, height := 100, px := opaqueBlackPx }

/-- A 600 by 400 RGB image. -/
def img600x400 : Img :=
  { mode := PilMode.RGB, width := 600, height := 400, px := opaqueBlackPx }

/-- A 100 by 50 RGB image, the size at which by_percent resizing at 29
percent exposes the float truncation. -/
def img100x50 : Img :=
  { mode := PilMode.RGB, width := 100, height := 50, px := opaqueBlackPx }

/-- A 1 by 1 RGBA image whose single pixel is white and fully transparent. -/
def transparentWhite1x1 : Img :=
  { mode := PilMode.RGBA, width := 1, height := 1,
    px := fun _ _ => { r := 255, g := 255, b := 255, a := 0 } }

/-- An export rule selecting JPEG output with the remaining defaults. -/
def jpegRule : ExportRule := { out_format := "JPEG" }

/-- A per-item pipeline that raises a directory-creation OSError on the first
image and succeeds on any other. -/
def c8proc : String → Except String String := fun p =>
  if p = "src/a.png" then Except.error "OSError cannot create export directory"
  else Except.ok "out/b.png"

/-- A per-item pipeline that always succeeds. -/
def wproc : String → Except String String := fun _ => Except.ok "w"

/-!
Theorems. One theorem per claim of the specification, with counterexamples
and witnesses where applicable.
-/

/-- Claim C1 (amended): for every canvas size, overlay size and offsets, the
geometry resolver returns the anchor base plus the raw offsets, where the top
row and left column use base 0, the bottom row and right column use
canvas - overlay, and the middle row and column use canvas // 2 - overlay // 2
(each operand floor-divided separately, not (canvas - overlay) // 2 as the
original claim stated); an unrecognized anchor tag yields base (0, 0), no
clamping is applied, and anchor tr on a 1000 by 800 canvas with a 100 by 50
overlay and offsets (10, 5) yields (910, 5). -/
theorem c1_anchor_formula (bw bh mw mh ox oy : Int) :
    calc_anchor_pos bw bh mw mh "tl" ox oy = (ox, oy)
    ∧ calc_anchor_pos bw bh mw mh "tm" ox oy =
        (Int.fdiv bw 2 - Int.fdiv mw 2 + ox, oy)
    ∧ calc_anchor_pos bw bh mw mh "tr" ox oy = (bw - mw + ox, oy)
    ∧ calc_anchor_pos bw bh mw mh "ml" ox oy =
        (ox, Int.fdiv bh 2 - Int.fdiv mh 2 + oy)
    ∧ calc_anchor_pos bw bh mw mh "center" ox oy =
        (Int.fdiv bw 2 - Int.fdiv mw 2 + ox, Int.fdiv bh 2 - Int.fdiv mh 2 + oy)
    ∧ calc_anchor_pos bw bh mw mh "mr" ox oy =
        (bw - mw + ox, Int.fdiv bh 2 - Int.fdiv mh 2 + oy)
    ∧ calc_anchor_pos bw bh mw mh "bl" ox oy = (ox, bh - mh + oy)
    ∧ calc_anchor_pos bw bh mw mh "bm" ox oy =
        (Int.fdiv bw 2 - Int.fdiv mw 2 + ox, bh - mh + oy)
    ∧ calc_anchor_pos bw bh mw mh "br" ox oy = (bw - mw + ox, bh - mh + oy)
    ∧ (∀ a : String, a ∉ anchor_tags → calc_anchor_pos bw bh mw mh a ox oy = (ox, oy))
    ∧ calc_anchor_pos 1000 800 100 50 "tr" 10 5 = (910, 5) := by
  refine ⟨by simp [calc_anchor_pos], by simp [calc_anchor_pos],
    by simp [calc_anchor_pos], by simp [calc_anchor_pos],
    by simp [calc_anchor_pos], by simp [calc_anchor_pos],
    by simp [calc_anchor_pos], by simp [calc_anchor_pos],
    by simp [calc_anchor_pos], ?_, by decide⟩
  intro a ha
  simp [anchor_tags] at ha
  obtain ⟨h1, h2, h3, h4, h5, h6, h7, h8, h9⟩ := ha
  simp [calc_anchor_pos, h1, h2, h3, h4, h5, h6, h7, h8, h9]

/-- Witness for c1_anchor_formula: the unrecognized-anchor conjunct applied
at a concrete anchor string and concrete offsets. -/
theorem c1_anchor_formula_witness :
    ("xx" : String) ∉ anchor_tags
    ∧ calc_anchor_pos 640 480 64 32 "xx" 3 4 = (3, 4) :=
  ⟨by decide,
    ((c1_anchor_formula 640 480 64 32 3 4).2.2.2.2.2.2.2.2.2.1) "xx" (by decide)⟩

/-- Counterexample to claim C1 as stated: on a 4 by 4 canvas with a 1 by 1
overlay and anchor tm, the code computes x = 4 // 2 - 1 // 2 = 2, while the
claimed formula (canvasW - overlayW) // 2 gives 1. -/
theorem c1_counterexample :
    calc_anchor_pos 4 4 1 1 "tm" 0 0 = (2, 0)
    ∧ claim_anchor_pos 4 4 1 1 "tm" 0 0 = (1, 0)
    ∧ calc_anchor_pos 4 4 1 1 "tm" 0 0 ≠ claim_anchor_pos 4 4 1 1 "tm" 0 0 := by
  decide

/-- Claim C2 (amended): a serialize-deserialize round trip returns the config
with every scalar field and every sequence element preserved, but with the
color and offset tuples returned as Python lists (json.load never produces a
tuple), so the result equals the sequence-normalized original rather than the
original itself; and a document with missing keys loads every missing field
with its per-field default, in particular the empty document loads to the
default config. -/
theorem c2_roundtrip :
    (∀ c : WatermarkConfig, load_last_state (save_last_state c) = normalize_config c)
    ∧ load_last_state {} = default_config := by
  constructor
  · intro c
    obtain ⟨ut, ⟨txt, op, fp, fs, st, sw, sc, fc, sh, so⟩, ui,
      ⟨mp, mo, ms⟩, ⟨an, lx, ly, rot, ad⟩, ⟨md, tx, fmt, q, rm, rv⟩⟩ := c
    cases sc <;> cases fc <;> cases so <;> rfl
  · rfl

/-- Counterexample to claim C2 as stated: the default config has tuple-valued
colors and offsets; after one round trip they come back as lists, and Python
equality (like this model) distinguishes a tuple from a list, so the result
is not equal to the original. -/
theorem c2_counterexample :
    load_last_state (save_last_state default_config) ≠ default_config := by
  decide

/-- Claim C3 (amended): every alpha the text renderer bakes into a drawing
color, for the fill, the stroke and the shadow alike, is the same value
int(255 * opacity / 100), which truncates (floors, for opacity in 0..100)
rather than rounds the quotient. -/
theorem c3_alpha_identical (cfg : TextStyle) (v : Int)
    (hv : v ∈ text_layer_alphas cfg) : v = text_alpha cfg.opacity := by
  cases hsh : cfg.shadow <;> cases hst : cfg.stroke <;>
    simp [text_layer_alphas, text_layer_ops, op_alphas, hsh, hst] at hv <;>
    simp [hv]

/-- Witness for c3_alpha_identical: the default style has opacity 40 and its
rendered layer carries alpha 102 = int(255 * 40 / 100) on every color. -/
theorem c3_alpha_identical_witness :
    (102 : Int) ∈ text_layer_alphas {}
    ∧ (102 : Int) = text_alpha ({} : TextStyle).opacity :=
  ⟨by decide, c3_alpha_identical {} 102 (by decide)⟩

/-- Counterexample to claim C3 as stated: at opacity 7 the code computes
alpha int(255 * 7 / 100) = 17, while the claimed round(255 * 7 / 100) is
round(17.85) = 18. -/
theorem c3_counterexample :
    text_alpha 7 = 17 ∧ round ((255 * 7 : ℚ) / 100) = 18 ∧ (17 : Int) ≠ 18 := by
  refine ⟨by decide, ?_, by decide⟩
  norm_num [round_eq]

/-- Claim C4 (amended): mode none returns the very image; any unrecognized
mode returns the very image without error; by_width sets the new width to
max(1, value) exactly and the new height to the truncated correctly rounded
double of height times new width over width, minimum 1; by_height is
symmetric; by_percent multiplies each dimension by the double value of
max(1, value) / 100.0 and truncates, minimum 1. This float path agrees with
exact floor scaling at the specification examples (50 percent of 200 by 100
is exactly 100 by 50, and by_width 300 on 600 by 400 gives 300 by 200, see
the witness) but not universally: it can fall one pixel below exact scaling
(width 100 at 29 percent yields 28, not 29, see the counterexample), which
is what the original claim overlooked. -/
theorem c4_resize_policy (env : PILEnv) (img : Img) (rule : ExportRule) :
    (rule.resize_mode = "none" → apply_resize env img rule = img)
    ∧ (rule.resize_mode ∉ (["none", "by_width", "by_height", "by_percent"] : List String) →
        apply_resize env img rule = img)
    ∧ (rule.resize_mode = "by_width" →
        (apply_resize env img rule).width = (max 1 rule.resize_value).toNat
        ∧ (apply_resize env img rule).height =
            max 1 (pyintdiv (img.height * (max 1 rule.resize_value).toNat) img.width))
    ∧ (rule.resize_mode = "by_height" →
        (apply_resize env img rule).height = (max 1 rule.resize_value).toNat
        ∧ (apply_resize env img rule).width =
            max 1 (pyintdiv (img.width * (max 1 rule.resize_value).toNat) img.height))
    ∧ (rule.resize_mode = "by_percent" →
        (apply_resize env img rule).width =
            max 1 (pyscale img.width (max 1 rule.resize_value).toNat)
        ∧ (apply_resize env img rule).height =
            max 1 (pyscale img.height (max 1 rule.resize_value).toNat)) := by
  refine ⟨fun h => by simp [apply_resize, h], ?_,
    fun h => by simp [apply_resize, h, resizeLanczos],
    fun h => by simp [apply_resize, h, resizeLanczos],
    fun h => by simp [apply_resize, h, resizeLanczos]⟩
  intro h
  simp [anchor_tags] at h
  obtain ⟨h1, h2, h3, h4⟩ := h
  simp [apply_resize, h1, h2, h3, h4]

set_option maxRecDepth 16000 in
/-- Witness for c4_resize_policy: the two sizes the specification gives as
examples, derived from the theorem at concrete inputs and evaluated through
the binary64 model, where both are exact; plus the unrecognized-mode
identity. -/
theorem c4_resize_policy_witness :
    (apply_resize trivialEnv img200x100
        { resize_mode := "by_percent", resize_value := 50 }).width = 100
    ∧ (apply_resize trivialEnv img200x100
        { resize_mode := "by_percent", resize_value := 50 }).height = 50
    ∧ (apply_resize trivialEnv img600x400
        { resize_mode := "by_width", resize_value := 300 }).width = 300
    ∧ (apply_resize trivialEnv img600x400
        { resize_mode := "by_width", resize_value := 300 }).height = 200
    ∧ apply_resize trivialEnv img200x100 { resize_mode := "zoom" } = img200x100 := by
  have hp := (c4_resize_policy trivialEnv img200x100
    { resize_mode := "by_percent", resize_value := 50 }).2.2.2.2 rfl
  have hw := (c4_resize_policy trivialEnv img600x400
    { resize_mode := "by_width", resize_value := 300 }).2.2.1 rfl
  have hu := (c4_resize_policy trivialEnv img200x100
    { resize_mode := "zoom" }).2.1 (by decide)
  exact ⟨hp.1.trans (by decide), hp.2.trans (by decide),
    hw.1.trans (by decide), hw.2.trans (by decide), hu⟩

set_option maxRecDepth 16000 in
/-- Counterexample to claim C4 as stated: by_percent with value 29 on a
100-wide image computes int(100 * (29 / 100.0)); the double nearest to
29 / 100 lies below it, the product 28.999999999999996 truncates to 28,
while scaling by max(1, value) / 100 exactly would give 29. -/
theorem c4_counterexample :
    (apply_resize trivialEnv img100x50
      { resize_mode := "by_percent", resize_value := 29 }).width = 28
    ∧ max 1 (img100x50.width * 29 / 100) = 29
    ∧ (28 : Nat) ≠ 29 := by
  refine ⟨by decide, by decide, by decide⟩

/-- Claim C5: the exported name is built from the source stem: keep uses it
unchanged, the prepend mode puts the rule text before it, the append mode
after it, any other mode behaves like keep; the extension is jpg exactly for
JPEG output and png for PNG output, independent of the source extension; a
successful export returns exactly the computed output path. -/
theorem c5_export_naming (src export_dir : String) (rule : ExportRule) :
    (rule.mode = "keep" → export_name rule (file_stem src) = file_stem src)
    ∧ (rule.mode = "prefix" → export_name rule (file_stem src) = rule.text ++ file_stem src)
    ∧ (rule.mode = "suffix" → export_name rule (file_stem src) = file_stem src ++ rule.text)
    ∧ (rule.mode ∉ (["keep", "prefix", "suffix"] : List String) →
        export_name rule (file_stem src) = file_stem src)
    ∧ (rule.out_format = "JPEG" → export_ext rule = "jpg")
    ∧ (rule.out_format = "PNG" → export_ext rule = "png")
    ∧ out_path_of src export_dir rule =
        pjoin export_dir (export_name rule (file_stem src) ++ "." ++ export_ext rule)
    ∧ (∀ (env : PILEnv) (img : Img) (p : String) (f : SavedFile),
        export_image env img src export_dir rule = Except.ok (p, f) →
        p = out_path_of src export_dir rule)
    ∧ file_stem "/a/b/photo.jpeg" = "photo" := by
  refine ⟨fun h => by simp [export_name, h], fun h => by simp [export_name, h],
    fun h => by simp [export_name, h], ?_,
    fun h => by simp [export_ext, h], fun h => by simp [export_ext, h],
    rfl, ?_, by decide⟩
  · intro h
    simp at h
    obtain ⟨h1, h2, h3⟩ := h
    simp [export_name, h1, h2, h3]
  · intro env img p f h
    simp only [export_image] at h
    split at h
    · split at h
      · cases h
        rfl
      · cases h
    · cases h
      rfl

/-- Witness for c5_export_naming: concrete names derived from the theorem,
matching the end-to-end example of the specification. -/
theorem c5_export_naming_witness :
    export_name { mode := "suffix", text := "_wm" } (file_stem "/a/b/photo.jpeg") = "photo_wm"
    ∧ export_name { mode := "prefix", text := "wm_" } (file_stem "/a/b/photo.jpeg") = "wm_photo"
    ∧ export_name { mode := "zz", text := "t" } (file_stem "x.tiff") = "x"
    ∧ export_ext jpegRule = "jpg"
    ∧ (∀ (p : String) (f : SavedFile),
        export_image trivialEnv transparentWhite1x1 "/a/b/photo.jpeg" "out"
          { mode := "suffix", text := "_wm" } = Except.ok (p, f) →
        p = out_path_of "/a/b/photo.jpeg" "out" { mode := "suffix", text := "_wm" }) := by
  have h1 := (c5_export_naming "/a/b/photo.jpeg" "out"
    { mode := "suffix", text := "_wm" }).2.2.1 rfl
  have h2 := (c5_export_naming "/a/b/photo.jpeg" "out"
    { mode := "prefix", text := "wm_" }).2.1 rfl
  have h3 := (c5_export_naming "x.tiff" "out" { mode := "zz", text := "t" }).2.2.2.1 (by decide)
  have h4 := (c5_export_naming "x.tiff" "out" jpegRule).2.2.2.2.1 rfl
  have h5 := fun p f =>
    (c5_export_naming "/a/b/photo.jpeg" "out" { mode := "suffix", text := "_wm" }).2.2.2.2.2.2.2.1
      trivialEnv transparentWhite1x1 p f
  exact ⟨h1.trans (by decide), h2.trans (by decide), h3.trans (by decide), h4, h5⟩

/-- Helper: converting any image toward RGBA yields mode RGBA. -/
theorem convertRGBA_mode (img : Img) : (convertRGBA img).mode = PilMode.RGBA := by
  by_cases h : img.mode = PilMode.RGBA <;> simp [convertRGBA, h]

/-- Helper: blending a fully opaque source pixel over any background yields
the source pixel, the on-top property of source-over compositing. -/
theorem blendOver_opaque (bg fg : RGBAc) (h : fg.a = 255) : blendOver bg fg = fg := by
  obtain ⟨fr, fgc, fb, fa⟩ := fg
  simp only at h
  subst h
  simp only [blendOver, RGBAc.mk.injEq]
  norm_num
  refine ⟨?_, ?_, ?_, ?_⟩ <;>
    first
      | decide
      | rw [mul_assoc, show ((255 : Int) * 255) = 65025 by norm_num,
          Int.mul_fdiv_cancel _ (by norm_num)]

/-- Helper: the image-watermark pass always returns an RGBA image. -/
theorem draw_image_watermark_mode (env : PILEnv) (b : Img) (m : ImageMark)
    (l : Layout) : (draw_image_watermark env b m l).mode = PilMode.RGBA := by
  unfold draw_image_watermark
  cases h : image_overlay env (convertRGBA b) m l
  · simp [h, convertRGBA_mode]
  · simp [h, alpha_composite]

/-- Helper: the text-watermark pass always returns an RGBA image. -/
theorem draw_text_watermark_mode (env : PILEnv) (b : Img) (c : TextStyle)
    (l : Layout) : (draw_text_watermark env b c l).mode = PilMode.RGBA := rfl

/-- Claim C6 (amended): the compositor opens the base image without resizing
and applies the text pass when use_text, then the image pass when use_image,
in that fixed order, so the image watermark lands on top: wherever the image
overlay is fully opaque its pixel wins. The result is an RGBA image whenever
at least one pass runs; with both passes disabled the opened image is
returned unchanged (in its original mode, not necessarily RGBA). The model
is a pure function of the opened image, so the source file is not mutated. -/
theorem c6_compositor_order (env : PILEnv) (path : String) (cfg : WatermarkConfig) :
    (cfg.use_text = true → cfg.use_image = true →
      apply_watermark_once env path cfg =
        draw_image_watermark env
          (draw_text_watermark env (env.openImage path) cfg.text cfg.layout)
          cfg.image cfg.layout)
    ∧ (cfg.use_text = true → cfg.use_image = false →
      apply_watermark_once env path cfg =
        draw_text_watermark env (env.openImage path) cfg.text cfg.layout)
    ∧ (cfg.use_text = false → cfg.use_image = true →
      apply_watermark_once env path cfg =
        draw_image_watermark env (env.openImage path) cfg.image cfg.layout)
    ∧ (cfg.use_text = false → cfg.use_image = false →
      apply_watermark_once env path cfg = env.openImage path)
    ∧ (cfg.use_text = true ∨ cfg.use_image = true →
      (apply_watermark_once env path cfg).mode = PilMode.RGBA)
    ∧ (∀ (base ov : Img) (x y : Int),
        image_overlay env (convertRGBA base) cfg.image cfg.layout = some ov →
        (ov.px x y).a = 255 →
        (draw_image_watermark env base cfg.image cfg.layout).px x y = ov.px x y) := by
  refine ⟨fun h1 h2 => by simp [apply_watermark_once, h1, h2],
    fun h1 h2 => by simp [apply_watermark_once, h1, h2],
    fun h1 h2 => by simp [apply_watermark_once, h1, h2],
    fun h1 h2 => by simp [apply_watermark_once, h1, h2], ?_, ?_⟩
  · intro hor
    cases ht : cfg.use_text <;> cases hi : cfg.use_image
    · rw [ht, hi] at hor
      simp at hor
    · simp [apply_watermark_once, ht, hi, draw_image_watermark_mode]
    · simp [apply_watermark_once, ht, hi, draw_text_watermark_mode]
    · simp [apply_watermark_once, ht, hi, draw_image_watermark_mode]
  · intro base ov x y ho ha
    simp only [draw_image_watermark, ho, alpha_composite]
    exact blendOver_opaque _ _ ha

set_option maxRecDepth 16000 in
/-- Witness for c6_compositor_order: with both passes enabled in a concrete
environment, the result is the image pass applied after the text pass, the
result is RGBA, and at the fully opaque mark pixel the output equals the
image-overlay pixel. -/
theorem c6_compositor_order_witness :
    apply_watermark_once markEnv "a.png" cfgBoth =
      draw_image_watermark markEnv
        (draw_text_watermark markEnv (markEnv.openImage "a.png") cfgBoth.text cfgBoth.layout)
        cfgBoth.image cfgBoth.layout
    ∧ (apply_watermark_once markEnv "a.png" cfgBoth).mode = PilMode.RGBA
    ∧ (draw_image_watermark markEnv rgb1x1 cfgBoth.image cfgBoth.layout).px 0 0 =
        ((image_overlay markEnv (convertRGBA rgb1x1) cfgBoth.image cfgBoth.layout).getD
          rgb1x1).px 0 0 := by
  have h := c6_compositor_order markEnv "a.png" cfgBoth
  refine ⟨h.1 rfl rfl, h.2.2.2.2.1 (Or.inl rfl), ?_⟩
  refine h.2.2.2.2.2 rgb1x1
    ((image_overlay markEnv (convertRGBA rgb1x1) cfgBoth.image cfgBoth.layout).getD rgb1x1)
    0 0 rfl (by decide)

/-- Counterexample to claim C6 as stated: with both watermark toggles off and
an RGB base image (a JPEG source), the compositor returns an RGB image, not
an RGBA one. -/
theorem c6_counterexample :
    (apply_watermark_once trivialEnv "a.jpg"
      { use_text := false, use_image := false }).mode = PilMode.RGB
    ∧ PilMode.RGB ≠ PilMode.RGBA := by
  exact ⟨rfl, by decide⟩

/-- Claim C7 (amended): JPEG export of an RGBA composited image never raises:
the alpha channel is dropped by conversion to a fully opaque 3-channel image
whose color channels keep their stored values (formerly transparent pixels
keep their stored color, which is black only when that color was black), and
the file is written at the configured quality with chroma subsampling
disabled; PNG export stores the image, alpha channel included, exactly. -/
theorem c7_jpeg_png_encoding (env : PILEnv) (img : Img) (src d : String)
    (rule : ExportRule) :
    (rule.out_format = "JPEG" → (apply_resize env img rule).mode = PilMode.RGBA →
      export_image env img src d rule =
        Except.ok (out_path_of src d rule,
          { format := "JPEG", quality := some rule.jpeg_quality, subsampling := some 0,
            image := convertRGB (apply_resize env img rule) }))
    ∧ (∀ (im : Img) (x y : Int),
        (convertRGB im).mode = PilMode.RGB
        ∧ ((convertRGB im).px x y).a = 255
        ∧ ((convertRGB im).px x y).r = (im.px x y).r
        ∧ ((convertRGB im).px x y).g = (im.px x y).g
        ∧ ((convertRGB im).px x y).b = (im.px x y).b)
    ∧ (rule.out_format = "PNG" →
        export_image env img src d rule =
          Except.ok (out_path_of src d rule, savePNG (apply_resize env img rule)))
    ∧ (∀ im : Img, (savePNG im).image = im) := by
  refine ⟨?_, fun im x y => ⟨rfl, rfl, rfl, rfl, rfl⟩, ?_, fun im => rfl⟩
  · intro hf hm
    simp [export_image, hf, hm, saveJPEG, convertRGB, modeHasAlpha]
  · intro hp
    simp [export_image, hp]

/-- Witness for c7_jpeg_png_encoding: a concrete 1 by 1 RGBA image with a
fully transparent pixel exports without error both as JPEG and as PNG. -/
theorem c7_jpeg_png_encoding_witness :
    export_image trivialEnv transparentWhite1x1 "a/s.png" "out" jpegRule =
      Except.ok (out_path_of "a/s.png" "out" jpegRule,
        { format := "JPEG", quality := some jpegRule.jpeg_quality, subsampling := some 0,
          image := convertRGB (apply_resize trivialEnv transparentWhite1x1 jpegRule) })
    ∧ export_image trivialEnv transparentWhite1x1 "a/s.png" "out" ({} : ExportRule) =
        Except.ok (out_path_of "a/s.png" "out" ({} : ExportRule),
          savePNG (apply_resize trivialEnv transparentWhite1x1 ({} : ExportRule))) := by
  have h1 := (c7_jpeg_png_encoding trivialEnv transparentWhite1x1 "a/s.png" "out" jpegRule).1
    rfl rfl
  have h2 := (c7_jpeg_png_encoding trivialEnv transparentWhite1x1 "a/s.png" "out"
    ({} : ExportRule)).2.2.1 rfl
  exact ⟨h1, h2⟩

/-- Counterexample to claim C7 as stated: a composited image whose single
pixel is white and fully transparent exports to JPEG as a white opaque pixel,
not a black one; the transparent region does not become black because the
conversion keeps the stored color channels. -/
theorem c7_counterexample :
    transparentWhite1x1.px 0 0 = { r := 255, g := 255, b := 255, a := 0 }
    ∧ exportedPixel (export_image trivialEnv transparentWhite1x1 "a/s.png" "out" jpegRule) 0 0 =
        some { r := 255, g := 255, b := 255, a := 255 }
    ∧ exportedPixel (export_image trivialEnv transparentWhite1x1 "a/s.png" "out" jpegRule) 0 0 ≠
        some { r := 0, g := 0, b := 0, a := 255 } := by
  refine ⟨rfl, rfl, by decide⟩

/-- Claim C8 (amended): during batch export no error class aborts the loop:
the loop produces one outcome per image no matter what the per-item pipeline
does, an unguarded item whose pipeline raises (directory creation failure,
disk full, decode error alike) is recorded as logged-and-skipped rather than
propagated, and a nonempty batch always runs to the completion dialog. The
original claim that directory-creation or disk errors abort the operation
and surface to the caller is false: export_image does raise them, but the
blanket per-item except in on_export_all catches and logs every exception. -/
theorem c8_batch_error_handling (absp : String → String)
    (proc : String → Except String String) (d : String) (paths : List String) :
    (batch_loop absp proc d paths).length = paths.length
    ∧ (∀ p e, absp (dirname p) ≠ absp d → proc p = Except.error e →
        batch_step absp proc d p = ItemOutcome.failedLogged p e)
    ∧ (paths ≠ [] → on_export_all absp proc paths d = some (batch_loop absp proc d paths)) := by
  refine ⟨?_, ?_, ?_⟩
  · induction paths with
    | nil => rfl
    | cons p rest ih => simp [batch_loop, ih]
  · intro p e h1 h2
    simp [batch_step, h1, h2]
  · intro h
    simp [on_export_all, h]

/-- Witness for c8_batch_error_handling: a concrete run where directory
creation fails on the first image; the failure is logged and the batch is
not aborted. -/
theorem c8_batch_error_handling_witness :
    batch_step id c8proc "out" "src/a.png" =
      ItemOutcome.failedLogged "src/a.png" "OSError cannot create export directory"
    ∧ on_export_all id c8proc ["src/a.png", "src/b.png"] "out" =
        some (batch_loop id c8proc "out" ["src/a.png", "src/b.png"]) := by
  have h := c8_batch_error_handling id c8proc "out" ["src/a.png", "src/b.png"]
  exact ⟨h.2.1 "src/a.png" "OSError cannot create export directory" (by decide) rfl,
    h.2.2 (by decide)⟩

/-- Counterexample to claim C8 as stated: an unrecoverable directory-creation
error on the first image does not abort the export; the error is only
logged, the second image is still exported, and the loop completes. -/
theorem c8_counterexample :
    on_export_all id c8proc ["src/a.png", "src/b.png"] "out" =
      some [ItemOutcome.failedLogged "src/a.png" "OSError cannot create export directory",
        ItemOutcome.exportedOk "src/b.png" "out/b.png"] := by
  decide

/-- Claim C9: an image whose directory equals the export directory under the
absolute-path map is refused with a per-item warning and produces no output,
every other image of the batch is still processed through the pipeline, and
the guard never aborts the batch: a nonempty batch yields exactly one
outcome per image. -/
theorem c9_source_dir_guard (absp : String → String)
    (proc : String → Except String String) (paths : List String) (d : String)
    (hne : paths ≠ []) :
    on_export_all absp proc paths d = some (paths.map (batch_step absp proc d))
    ∧ (∀ p, absp (dirname p) = absp d →
        batch_step absp proc d p = ItemOutcome.skippedGuard p)
    ∧ (∀ p w, absp (dirname p) ≠ absp d → proc p = Except.ok w →
        batch_step absp proc d p = ItemOutcome.exportedOk p w) := by
  refine ⟨?_, ?_, ?_⟩
  · have hmap : ∀ l, batch_loop absp proc d l = l.map (batch_step absp proc d) := by
      intro l
      induction l with
      | nil => rfl
      | cons p rest ih => simp [batch_loop, ih]
    simp [on_export_all, hne, hmap]
  · intro p h
    simp [batch_step, h]
  · intro p w h1 h2
    simp [batch_step, h1, h2]

/-- Witness for c9_source_dir_guard: a two-image batch where the first image
lives in the export directory: it is skipped with a warning while the second
is exported, and both items receive an outcome. -/
theorem c9_source_dir_guard_witness :
    on_export_all id wproc ["d/a.png", "s/b.png"] "d" =
      some (["d/a.png", "s/b.png"].map (batch_step id wproc "d"))
    ∧ batch_step id wproc "d" "d/a.png" = ItemOutcome.skippedGuard "d/a.png"
    ∧ batch_step id wproc "d" "s/b.png" = ItemOutcome.exportedOk "s/b.png" "w" := by
  have h := c9_source_dir_guard id wproc ["d/a.png", "s/b.png"] "d" (by decide)
  exact ⟨h.1, h.2.1 "d/a.png" (by decide), h.2.2 "s/b.png" "w" (by decide) rfl⟩

/-- Claim C10: with both watermark toggles off the compositor returns the
opened base image completely unchanged, in particular in its original color
mode, with no overlay pass applied. -/
theorem c10_no_overlay_identity (env : PILEnv) (path : String)
    (cfg : WatermarkConfig) (ht : cfg.use_text = false)
    (hi : cfg.use_image = false) :
    apply_watermark_once env path cfg = env.openImage path
    ∧ (apply_watermark_once env path cfg).mode = (env.openImage path).mode := by
  have h : apply_watermark_once env path cfg = env.openImage path := by
    simp [apply_watermark_once, ht, hi]
  exact ⟨h, by rw [h]⟩

/-- Witness for c10_no_overlay_identity: a concrete RGB (JPEG-like) source
with both toggles off comes back unchanged and still in mode RGB. -/
theorem c10_no_overlay_identity_witness :
    apply_watermark_once trivialEnv "photo.jpg" { use_text := false, use_image := false } =
      trivialEnv.openImage "photo.jpg"
    ∧ (apply_watermark_once trivialEnv "photo.jpg"
        { use_text := false, use_image := false }).mode = PilMode.RGB := by
  have h := c10_no_overlay_identity trivialEnv "photo.jpg"
    { use_text := false, use_image := false } rfl rfl
  exact ⟨h.1, h.2.trans rfl⟩
